import Mathlib

/-!
Verification of the Workhorse 75 kHz instrument driver protocol
(`mi/instrument/teledyne/workhorse_monitor_75_khz/driver.py`).

The driver is embedded shallowly: byte buffers are `List Nat` (one entry
per byte), instrument I/O primitives are represented by their outcomes
(`Except Err`), and every handler returns both the list of I/O actions it
performed (in order) and its result, so that control-flow properties
(cleanup always runs, sequences abort on failure, no write before a
validation step) are visible in the model.
-/

deriving instance DecidableEq for Except

namespace Workhorse

/-- Constant `NEWLINE`, the line terminator used by the driver (imported from the
teledyne base module; CR LF on the wire). -/
def NEWLINE : String := "\r\n"

namespace Prompt

/-- Constant `Prompt.COMMAND` from driver.py line 214. -/
def COMMAND : String := "\r\n>\r\n>"

/-- Constant `Prompt.ERR` from driver.py line 216. -/
def ERR : String := "ERR:"

end Prompt

namespace InstrumentCmds

/-- Command `InstrumentCmds.SAVE_SETUP_TO_RAM` (driver.py line 72). -/
def SAVE_SETUP_TO_RAM : String := "CK"

/-- Command `InstrumentCmds.START_DEPLOYMENT` (driver.py line 73). -/
def START_DEPLOYMENT : String := "CS"

/-- Command `InstrumentCmds.OUTPUT_CALIBRATION_DATA` (driver.py line 74). -/
def OUTPUT_CALIBRATION_DATA : String := "AC"

/-- Command `InstrumentCmds.GET_SYSTEM_CONFIGURATION` (driver.py line 79). -/
def GET_SYSTEM_CONFIGURATION : String := "PS0"

/-- Command `InstrumentCmds.SET` (driver.py line 83). -/
def SET : String := " "

/-- Command `InstrumentCmds.GET` (driver.py line 84). -/
def GET : String := "  "

end InstrumentCmds

/-- Failure taxonomy of the driver: `InstrumentTimeoutException`,
`InstrumentProtocolException msg` and `InstrumentParameterException msg`
are the exception classes raised on the paths modelled here. -/
inductive Err
  | timeout
  | protocolError (msg : String)
  | parameterError (msg : String)
deriving DecidableEq, Repr

/-- States `ProtocolState` (driver.py lines 87-94). -/
inductive ProtocolState
  | UNKNOWN
  | COMMAND
  | AUTOSAMPLE
  | DIRECT_ACCESS
deriving DecidableEq, Repr

/-- One instrument I/O primitive performed by the protocol, as recorded in
the trace of a handler: `_send_break`, `_wakeup`, `_wakeup_until`,
`_do_cmd_resp cmd firstArg` and `_do_cmd_no_resp cmd`. -/
inductive Action
  | sendBreak
  | wakeup
  | wakeupUntil
  | cmdResp (cmd arg : String)
  | cmdNoResp (cmd : String)
deriving DecidableEq, Repr

/-! ## Frame sieve (`WorkhorseProtocol.sieve_function`, driver.py 401-438)

The PD0 branch of `sieve_function` replaces the particle regex by
the DOTALL pattern `\x7f\x7f(..)` and, for each (non-overlapping,
left-to-right) match, reads the two bytes after the marker as a native
little-endian unsigned short `l`, re-scans from the match start with
`\x7f\x7f(.{l})` and emits `(start, end)` for each re-scan match that
starts at the same position.  `matchesFrom raw k pos` is `finditer` for
the fixed-length pattern `\x7f\x7f` followed by `k` arbitrary bytes,
starting the scan at `pos`: the Python `finditer` tries each position left
to right and resumes after the end of a successful match. -/

/-- Helper for `matchesFrom`, structurally recursive on a scan budget
`fuel`.  Each step either emits a match at `pos` and resumes at
`pos + 2 + k` (non-overlapping semantics) or advances to `pos + 1`; the
scan stops as soon as too few bytes remain for the fixed-length pattern.
`fuel = raw.length + 1 - pos` steps always suffice, because the position
strictly increases each step (`matchesFromAux_irrel` below shows any
sufficient budget gives the same result). -/
def matchesFromAux (raw : List Nat) (k : Nat) : Nat → Nat → List Nat
  | 0, _ => []
  | fuel + 1, pos =>
    if pos + 2 + k ≤ raw.length then
      if raw.getD pos 0 = 127 ∧ raw.getD (pos + 1) 0 = 127 then
        pos :: matchesFromAux raw k fuel (pos + 2 + k)
      else
        matchesFromAux raw k fuel (pos + 1)
    else []

/-- Start positions of the non-overlapping matches of the pattern
"two 0x7f bytes followed by `k` arbitrary bytes" in `raw`, scanning from
`pos` (the byte 0x7f is 127). -/
def matchesFrom (raw : List Nat) (k pos : Nat) : List Nat :=
  matchesFromAux raw k (raw.length + 1 - pos) pos

/-- The value of the two-byte little-endian length field that follows the
sync marker at position `p` (`unpack("H", match.group(1))`,
driver.py line 423). -/
def lenAt (raw : List Nat) (p : Nat) : Nat :=
  raw.getD (p + 2) 0 + 256 * raw.getD (p + 3) 0

/-- Frames contributed by one outer match of the PD0 branch (driver.py
lines 423-433): with `l` the length field at `outerPos`, re-scan from
`outerPos` with `\x7f\x7f(.{l})` and emit `(match.start(), match.end())`
for each inner match whose start equals `outerPos`. -/
def pd0FramesAt (raw : List Nat) (outerPos : Nat) : List (Nat × Nat) :=
  (matchesFrom raw (lenAt raw outerPos) outerPos).filterMap fun innerPos =>
    if outerPos = innerPos then
      some (innerPos, innerPos + 2 + lenAt raw outerPos)
    else none

/-- The binary (PD0) branch of `sieve_function` (driver.py lines 415-433):
the frames of every outer match of `\x7f\x7f(..)`, in scan order. -/
def pd0Frames (raw : List Nat) : List (Nat × Nat) :=
  (matchesFrom raw 2 0).flatMap (pd0FramesAt raw)

/-- Model of `WorkhorseProtocol.sieve_function` (driver.py lines 401-438).  The loop
appends the frames of the PD0 branch first, then the matches of
`ADCP_SYSTEM_CONFIGURATION_REGEX_MATCHER`, then those of
`ADCP_COMPASS_CALIBRATION_REGEX_MATCHER`.  Modelled from the spec: the two
ASCII regexes live in the `particles` module, which is not under src/;
per spec section 4.1 each ASCII matcher is a regular-expression search
producing the byte ranges of its response blocks, so each is abstracted
here by the list of `(start, end)` ranges its `finditer` returns, given in
ascending start order as `finditer` yields them. -/
def sieve_function (raw : List Nat)
    (sysConfigMatches compassCalMatches : List (Nat × Nat)) : List (Nat × Nat) :=
  pd0Frames raw ++ sysConfigMatches ++ compassCalMatches

/-! ## Logging probes and mode helpers

Instrument I/O is represented by its outcome: every model function takes
the outcomes of the primitives it performs (in program order) and returns
the trace of performed actions together with its own result, an exception
being an `Except.error`. -/

/-- Model of `_is_logging` (driver.py 1805-1821): wake the instrument and
classify the prompt — the command prompt means not logging, any other
prompt means logging.  `wake` is the outcome of the `_wakeup` call.
Modelled from the spec: `_wakeup` lives in the core protocol base (the
local copy at driver.py 898-935 is commented out and mi.core is not under
src/); per spec sections 4.4, 5 and 7 it retries within a bounded budget
and fails with a timeout when no recognizable prompt appears, so its
outcome is either one of the declared prompts or an error. -/
def is_logging (wake : Except Err String) : List Action × Except Err Bool :=
  ([Action.wakeup],
    match wake with
    | .error e => .error e
    | .ok prompt => if Prompt.COMMAND = prompt then .ok false else .ok true)

/-- Model of `_start_logging` (driver.py 1823-1837): if `_is_logging()`
already reports logging, return `True` immediately; otherwise send
`START_DEPLOYMENT` via `_do_cmd_no_resp` and return `True`.  `probe` is
the `_wakeup` outcome inside `_is_logging`, `deploy` the outcome of the
`START_DEPLOYMENT` send. -/
def start_logging (probe : Except Err String) (deploy : Except Err Unit) :
    List Action × Except Err Bool :=
  let il := is_logging probe
  match il.2 with
  | .error e => (il.1, .error e)
  | .ok true => (il.1, .ok true)
  | .ok false =>
    match deploy with
    | .error e => (il.1 ++ [Action.cmdNoResp InstrumentCmds.START_DEPLOYMENT], .error e)
    | .ok _ => (il.1 ++ [Action.cmdNoResp InstrumentCmds.START_DEPLOYMENT], .ok true)

/-- Model of `_stop_logging` (driver.py 1839-1863): send a break, prompt
the device until the command prompt is seen (`_wakeup_until`, core base
class, bounded retries — modelled by its outcome `wakeupUntil`), then
probe with `_is_logging` and raise `InstrumentProtocolException
"failed to stop logging"` if the device still reports logging. -/
def stop_logging (wakeupUntil : Except Err Unit) (probe : Except Err String) :
    List Action × Except Err Unit :=
  match wakeupUntil with
  | .error e => ([Action.sendBreak, Action.wakeupUntil], .error e)
  | .ok _ =>
    let il := is_logging probe
    match il.2 with
    | .error e => ([Action.sendBreak, Action.wakeupUntil] ++ il.1, .error e)
    | .ok true =>
      ([Action.sendBreak, Action.wakeupUntil] ++ il.1,
        .error (Err.protocolError "failed to stop logging"))
    | .ok false => ([Action.sendBreak, Action.wakeupUntil] ++ il.1, .ok ())

/-- Modelled from the spec: the FSM dispatcher (`InstrumentFSM` in
mi.core.instrument.instrument_fsm, not under src/) moves to the
`next_state` a handler returns; when the handler raises an exception, or
returns no next state, no transition happens and the current state is
kept (spec section 4.4: a failed transition sequence leaves the state
unchanged). -/
def fsm_apply (current : ProtocolState) (r : Except Err (Option ProtocolState)) :
    ProtocolState :=
  match r with
  | .error _ => current
  | .ok none => current
  | .ok (some s) => s

/-- Model of `_handler_unknown_discover` (driver.py 1233-1258): call
`_is_logging`; a `None` result would raise `InstrumentProtocolException
"_handler_unknown_discover - unable to to determine state"`, but
`_is_logging` (driver.py 1805-1821) always returns a bool, so that branch
cannot fire and does not appear in the model; `True` selects `AUTOSAMPLE`,
`False` selects `COMMAND`; an exception from the probe propagates. -/
def handler_unknown_discover (wake : Except Err String) :
    List Action × Except Err (Option ProtocolState) :=
  let il := is_logging wake
  match il.2 with
  | .error e => (il.1, .error e)
  | .ok true => (il.1, .ok (some ProtocolState.AUTOSAMPLE))
  | .ok false => (il.1, .ok (some ProtocolState.COMMAND))

/-- Model of `_handler_autosample_stop_autosample` (driver.py 1310-1331):
run `_stop_logging`; on success return `COMMAND` as the next state; an
exception propagates, so no transition happens. -/
def handler_autosample_stop_autosample (wakeupUntil : Except Err Unit)
    (probe : Except Err String) : List Action × Except Err (Option ProtocolState) :=
  let sl := stop_logging wakeupUntil probe
  match sl.2 with
  | .error e => (sl.1, .error e)
  | .ok _ => (sl.1, .ok (some ProtocolState.COMMAND))

/-- Per-step outcomes for `_handler_command_start_autosample`: the
`SET TIME` response, the `SAVE_SETUP_TO_RAM` response and the
`START_DEPLOYMENT` send. -/
structure StartAutosampleDevice where
  setTimeResp : Except Err String
  saveSetupResp : Except Err String
  startDeploy : Except Err Unit

/-- Model of `_handler_command_start_autosample` (driver.py 1282-1308):
sync the clock (a `SET` of the `TT` TIME parameter), save the setup to
RAM (`CK`), send `START_DEPLOYMENT` (`CS`, no response expected), in that
order; an exception from any step aborts the remaining steps; only the
all-success path returns `AUTOSAMPLE` as the next state. -/
def handler_command_start_autosample (d : StartAutosampleDevice) :
    List Action × Except Err (Option ProtocolState) :=
  match d.setTimeResp with
  | .error e => ([Action.cmdResp InstrumentCmds.SET "TT"], .error e)
  | .ok _ =>
    match d.saveSetupResp with
    | .error e =>
      ([Action.cmdResp InstrumentCmds.SET "TT",
        Action.cmdResp InstrumentCmds.SAVE_SETUP_TO_RAM ""], .error e)
    | .ok _ =>
      match d.startDeploy with
      | .error e =>
        ([Action.cmdResp InstrumentCmds.SET "TT",
          Action.cmdResp InstrumentCmds.SAVE_SETUP_TO_RAM "",
          Action.cmdNoResp InstrumentCmds.START_DEPLOYMENT], .error e)
      | .ok _ =>
        ([Action.cmdResp InstrumentCmds.SET "TT",
          Action.cmdResp InstrumentCmds.SAVE_SETUP_TO_RAM "",
          Action.cmdNoResp InstrumentCmds.START_DEPLOYMENT],
          .ok (some ProtocolState.AUTOSAMPLE))

/-! ## The autosample interrupt-and-restore handlers -/

/-- Outcomes of the primitives used by the three autosample
interrupt-and-restore handlers, in program order: the two `_stop_logging`
stages, the interrupted operation command, and the two `_start_logging`
stages run in the `finally` block. -/
structure InterruptRestoreDevice where
  stopWakeupUntil : Except Err Unit
  stopProbePrompt : Except Err String
  opResp : Except Err String
  startProbePrompt : Except Err String
  startDeploy : Except Err Unit

/-- Model of the `try ... except Exception as e: error = e` block shared
by the three autosample handlers (driver.py 1418-1431, 1457-1469,
1498-1511): `_stop_logging`, then the operation command of the handler
(`opAct`); returns the trace, the captured error (if any) and the
operation result. -/
def tryBodyRun (d : InterruptRestoreDevice) (opAct : Action) :
    List Action × Option Err × Option String :=
  let sl := stop_logging d.stopWakeupUntil d.stopProbePrompt
  match sl.2 with
  | .error e => (sl.1, some e, none)
  | .ok _ =>
    match d.opResp with
    | .error e => (sl.1 ++ [opAct], some e, none)
    | .ok r => (sl.1 ++ [opAct], none, some r)

/-- Model of the full `try/except/finally` shape of the autosample
handlers (driver.py 1401-1438, 1440-1479, 1481-1523): after the body, the
`finally` block runs `_start_logging()`; per Python semantics an
exception raised inside the `finally` block propagates and replaces the
captured one; otherwise `if error: raise error` re-raises the captured
error, else the operation result is returned. -/
def interruptRestoreRun (d : InterruptRestoreDevice) (opAct : Action) :
    List Action × Except Err (Option String) :=
  let body := tryBodyRun d opAct
  let sr := start_logging d.startProbePrompt d.startDeploy
  let trace := body.1 ++ sr.1
  match sr.2 with
  | .error e2 => (trace, .error e2)
  | .ok _ =>
    match body.2.1 with
    | some e => (trace, .error e)
    | none => (trace, .ok body.2.2)

/-- Model of `_handler_autosample_get_calibration` (driver.py 1401-1438);
the operation is the `OUTPUT_CALIBRATION_DATA` (`AC`) command. -/
def handler_autosample_get_calibration (d : InterruptRestoreDevice) :
    List Action × Except Err (Option String) :=
  interruptRestoreRun d (Action.cmdResp InstrumentCmds.OUTPUT_CALIBRATION_DATA "")

/-- Model of `_handler_autosample_get_configuration` (driver.py
1440-1479); the operation is the `GET_SYSTEM_CONFIGURATION` (`PS0`)
command. -/
def handler_autosample_get_configuration (d : InterruptRestoreDevice) :
    List Action × Except Err (Option String) :=
  interruptRestoreRun d (Action.cmdResp InstrumentCmds.GET_SYSTEM_CONFIGURATION "")

/-- Model of `_handler_autosample_clock_sync` (driver.py 1481-1523); the
body calls `_sync_clock` (teledyne base module, not under src/) —
modelled from the spec as one `SET` transaction on the `TT` (TIME)
parameter. -/
def handler_autosample_clock_sync (d : InterruptRestoreDevice) :
    List Action × Except Err (Option String) :=
  interruptRestoreRun d (Action.cmdResp InstrumentCmds.SET "TT")

/-! ## Parameter refresh and parameter setting -/

/-- Wire mnemonics of the `Parameter` class (driver.py 164-207) in the
order the GET loop of `_update_params` (driver.py 965-976) visits them:
`sorted(dir(Parameter))` is alphabetical by attribute name (the inherited
`DriverParameter.ALL` and the `BaseEnum` helpers `dict`, `has`, `list`
are filtered out by the loop, as are underscore attributes). -/
def parameterKeys : List String :=
  ["WV", "WB", "CH", "WF", "WI", "EX", "WC", "WS", "WE", "WA", "CI", "WN",
   "WP", "WU", "EP", "CP", "WJ", "ER", "ES", "CN", "EZ", "CD", "CF", "WD",
   "CL", "EC", "TT", "TG", "TE", "TP", "WT", "WM", "WL", "CQ"]

/-- After the GET loop of `_update_params` the Python variable `key`
still holds the key of the last visited attribute — `XMIT_POWER`, wire
mnemonic `CQ` — and driver.py line 978 issues one more GET for it. -/
def lastLoopKey : String := "CQ"

/-- Model of the GET loop of `_update_params` (driver.py 967-976): one
`_do_cmd_resp(GET, key)` per key, concatenating the responses with
`NEWLINE`; an exception from any GET propagates immediately (the loop has
no try/except), aborting the rest of the loop. -/
def update_go (getResp : String → Except Err String) :
    List String → String → List Action × Except Err String
  | [], acc => ([], .ok acc)
  | k :: ks, acc =>
    match getResp k with
    | .error e => ([Action.cmdResp InstrumentCmds.GET k], .error e)
    | .ok r =>
      let rest := update_go getResp ks (acc ++ r ++ NEWLINE)
      (Action.cmdResp InstrumentCmds.GET k :: rest.1, rest.2)

/-- Model of `_update_params` (driver.py 950-985): wake the instrument,
GET every declared parameter in `parameterKeys` order, then issue one
extra GET of the last loop key (line 978).  The old/new config comparison
done afterwards on the cached dict involves no instrument I/O and is not
modelled. -/
def update_params (wake : Except Err String)
    (getResp : String → Except Err String) : List Action × Except Err String :=
  match wake with
  | .error e => ([Action.wakeup], .error e)
  | .ok _ =>
    let loop := update_go getResp parameterKeys ""
    match loop.2 with
    | .error e => (Action.wakeup :: loop.1, .error e)
    | .ok results =>
      match getResp lastLoopKey with
      | .error e =>
        (Action.wakeup ::
          (loop.1 ++ [Action.cmdResp InstrumentCmds.GET lastLoopKey]), .error e)
      | .ok _ =>
        (Action.wakeup ::
          (loop.1 ++ [Action.cmdResp InstrumentCmds.GET lastLoopKey]), .ok results)

/-- Parameters declared with `visibility=ParameterDictVisibility.READ_ONLY`
in `_build_param_dict` (driver.py): SERIAL_DATA_OUT (`CD`) and TIME
(`TT`). -/
def paramReadOnly (key : String) : Bool :=
  key = "CD" || key = "TT"

/-- Parameters declared with `visibility=ParameterDictVisibility.IMMUTABLE`
in `_build_param_dict` (driver.py): SERIAL_FLOW_CONTROL (`CF`),
SAVE_NVRAM_TO_RECORDER (`CN`), SERIAL_OUT_FW_SWITCHES (`WD`) and
WATER_PROFILING_MODE (`WM`). -/
def paramImmutable (key : String) : Bool :=
  key = "CF" || key = "CN" || key = "WD" || key = "WM"

/-- Modelled from the spec: `_verify_not_readonly` (core protocol base,
not under src/) fails with an `InstrumentParameterException` when the map
names a READ_ONLY parameter, or an IMMUTABLE one outside of startup (spec
section 4.2: a SET is rejected with ReadOnly, before any I/O, when the
parameter mutability or its runtime visibility forbids setting it). -/
def verify_not_readonly (params : List (String × String)) (startup : Bool) :
    Except Err Unit :=
  if params.any fun p => paramReadOnly p.1 || (!startup && paramImmutable p.1) then
    .error (Err.parameterError "Attempt to set read only parameter(s)")
  else .ok ()

/-- Model of the SET loop of `_set_params` (driver.py 1581-1582): one
`_do_cmd_resp(SET, key, val)` per map entry; `result` keeps the last
response; an exception propagates immediately. -/
def set_go (setResp : String → String → Except Err String) :
    List (String × String) → Option String → List Action × Except Err (Option String)
  | [], last => ([], .ok last)
  | (k, v) :: rest, _ =>
    match setResp k v with
    | .error e => ([Action.cmdResp InstrumentCmds.SET k], .error e)
    | .ok r =>
      let rr := set_go setResp rest (some r)
      (Action.cmdResp InstrumentCmds.SET k :: rr.1, rr.2)

/-- Model of `_set_params` (driver.py 1560-1584): check the whole map
against the read-only declarations first (`_verify_not_readonly`, before
any transport write), then issue one SET per entry, then run
`_update_params` to re-read the configuration. -/
def set_params (params : List (String × String)) (startup : Bool)
    (setResp : String → String → Except Err String)
    (wake : Except Err String) (getResp : String → Except Err String) :
    List Action × Except Err (Option String) :=
  match verify_not_readonly params startup with
  | .error e => ([], .error e)
  | .ok _ =>
    let sg := set_go setResp params none
    match sg.2 with
    | .error e => (sg.1, .error e)
    | .ok r =>
      let up := update_params wake getResp
      match up.2 with
      | .error e => (sg.1 ++ up.1, .error e)
      | .ok _ => (sg.1 ++ up.1, .ok r)

/-! ## Concrete scenario inputs -/

/-- Buffer of 12 bytes holding exactly one well-formed PD0 record: sync
marker `7f 7f`, little-endian length field 10 (so the declared length
covers bytes 2-11 and the record spans the whole buffer), with a spurious
sync marker `7f 7f` followed by a plausible length field 2 inside the
payload at offset 4. -/
def c1buf : List Nat := [127, 127, 10, 0, 127, 127, 2, 0, 1, 2, 3, 4]

/-- Buffer of 6 bytes holding one well-formed PD0 record (marker plus
length field 2). -/
def c1wbuf : List Nat := [127, 127, 2, 0, 9, 9]

/-- Buffer whose first four bytes belong to an ASCII response block and
whose bytes 4-7 are a well-formed binary record (marker plus length
field 2). -/
def c8buf : List Nat := [65, 66, 13, 10, 127, 127, 2, 0, 5, 6]

/-- Per-parameter GET outcomes in which the GET of `BANDWIDTH_CONTROL`
(`WB`, the second parameter in loop order) times out and every other GET
succeeds. -/
def c3getResp (k : String) : Except Err String :=
  if k = "WB" then .error Err.timeout else .ok ("OK " ++ k)

/-- Device outcomes in which `_stop_logging` succeeds, the calibration
command fails, and the restore succeeds: the `finally`-block
`_start_logging` probe reports the device already logging again. -/
def c2dev : InterruptRestoreDevice :=
  { stopWakeupUntil := .ok ()
    stopProbePrompt := .ok Prompt.COMMAND
    opResp := .error (Err.protocolError "getCalibration failed")
    startProbePrompt := .ok "RDI banner"
    startDeploy := .ok () }

/-- Device outcomes in which `_stop_logging` succeeds, the calibration
command fails, and the `finally`-block `_start_logging` also fails: its
probe sees the command prompt (not logging) and `START_DEPLOYMENT` times
out. -/
def c9dev : InterruptRestoreDevice :=
  { stopWakeupUntil := .ok ()
    stopProbePrompt := .ok Prompt.COMMAND
    opResp := .error (Err.protocolError "getCalibration failed")
    startProbePrompt := .ok Prompt.COMMAND
    startDeploy := .error Err.timeout }

/-- Step outcomes for a start-autosample run whose `SAVE_SETUP_TO_RAM`
step times out. -/
def c7dev : StartAutosampleDevice :=
  { setTimeResp := .ok "TT2013/02/26,05:28:23"
    saveSetupResp := .error Err.timeout
    startDeploy := .ok () }

/-! ### Basic properties of the binary scan -/

theorem matchesFromAux_mem (raw : List Nat) (k : Nat) :
    ∀ fuel pos q, q ∈ matchesFromAux raw k fuel pos →
      pos ≤ q ∧ q + 2 + k ≤ raw.length ∧
        raw.getD q 0 = 127 ∧ raw.getD (q + 1) 0 = 127 := by
  intro fuel
  induction fuel with
  | zero => intro pos q h; simp [matchesFromAux] at h
  | succ n ih =>
    intro pos q h
    rw [matchesFromAux] at h
    by_cases hfit : pos + 2 + k ≤ raw.length
    · rw [if_pos hfit] at h
      by_cases hbytes : raw.getD pos 0 = 127 ∧ raw.getD (pos + 1) 0 = 127
      · rw [if_pos hbytes] at h
        rcases List.mem_cons.mp h with rfl | h
        · exact ⟨Nat.le_refl _, hfit, hbytes.1, hbytes.2⟩
        · have := ih _ _ h
          exact ⟨by omega, this.2.1, this.2.2.1, this.2.2.2⟩
      · rw [if_neg hbytes] at h
        have := ih _ _ h
        exact ⟨by omega, this.2.1, this.2.2.1, this.2.2.2⟩
    · rw [if_neg hfit] at h
      simp at h

theorem matchesFromAux_irrel (raw : List Nat) (k : Nat) :
    ∀ f1 f2 pos, raw.length + 1 - pos ≤ f1 → raw.length + 1 - pos ≤ f2 →
      matchesFromAux raw k f1 pos = matchesFromAux raw k f2 pos := by
  intro f1
  induction f1 with
  | zero =>
    intro f2 pos h1 h2
    have hpos : raw.length + 1 ≤ pos := by omega
    cases f2 with
    | zero => rfl
    | succ m =>
      rw [matchesFromAux, matchesFromAux, if_neg (by omega)]
  | succ n ih =>
    intro f2 pos h1 h2
    cases f2 with
    | zero =>
      have hpos : raw.length + 1 ≤ pos := by omega
      rw [matchesFromAux, matchesFromAux, if_neg (by omega)]
    | succ m =>
      rw [matchesFromAux, matchesFromAux]
      by_cases hfit : pos + 2 + k ≤ raw.length
      · rw [if_pos hfit, if_pos hfit]
        by_cases hbytes : raw.getD pos 0 = 127 ∧ raw.getD (pos + 1) 0 = 127
        · rw [if_pos hbytes, if_pos hbytes, ih m (pos + 2 + k) (by omega) (by omega)]
        · rw [if_neg hbytes, if_neg hbytes, ih m (pos + 1) (by omega) (by omega)]
      · rw [if_neg hfit, if_neg hfit]

/-- The scan satisfies the intended (fuel-free) recurrence: try a match at
`pos`; on success resume after its end, otherwise at the next byte; stop
when fewer than `2 + k` bytes remain. -/
theorem matchesFrom_rec (raw : List Nat) (k pos : Nat) :
    matchesFrom raw k pos =
      if pos + 2 + k ≤ raw.length then
        if raw.getD pos 0 = 127 ∧ raw.getD (pos + 1) 0 = 127 then
          pos :: matchesFrom raw k (pos + 2 + k)
        else
          matchesFrom raw k (pos + 1)
      else [] := by
  unfold matchesFrom
  by_cases hfit : pos + 2 + k ≤ raw.length
  · have hf : raw.length + 1 - pos = (raw.length - pos) + 1 := by omega
    rw [hf, matchesFromAux, if_pos hfit]
    by_cases hbytes : raw.getD pos 0 = 127 ∧ raw.getD (pos + 1) 0 = 127
    · rw [if_pos hbytes, if_pos hfit, if_pos hbytes,
        matchesFromAux_irrel raw k (raw.length - pos) (raw.length + 1 - (pos + 2 + k))
          (pos + 2 + k) (by omega) (by omega)]
    · rw [if_neg hbytes, if_pos hfit, if_neg hbytes,
        matchesFromAux_irrel raw k (raw.length - pos) (raw.length + 1 - (pos + 1))
          (pos + 1) (by omega) (by omega)]
  · rw [if_neg hfit]
    rcases Nat.eq_zero_or_eq_succ_pred (raw.length + 1 - pos) with h | h
    · rw [h, matchesFromAux]
    · rw [h, matchesFromAux, if_neg hfit]

theorem matchesFrom_mem (raw : List Nat) (k pos q : Nat)
    (h : q ∈ matchesFrom raw k pos) :
    pos ≤ q ∧ q + 2 + k ≤ raw.length ∧
      raw.getD q 0 = 127 ∧ raw.getD (q + 1) 0 = 127 :=
  matchesFromAux_mem raw k _ pos q h

/-- A scan starting at `pos` reports a match at `pos` itself exactly when
the two marker bytes sit at `pos` and `k` more bytes fit in the buffer. -/
theorem matchesFrom_self_mem_iff (raw : List Nat) (k pos : Nat) :
    pos ∈ matchesFrom raw k pos ↔
      pos + 2 + k ≤ raw.length ∧
        raw.getD pos 0 = 127 ∧ raw.getD (pos + 1) 0 = 127 := by
  constructor
  · intro h
    have := matchesFrom_mem raw k pos pos h
    exact ⟨this.2.1, this.2.2.1, this.2.2.2⟩
  · intro ⟨hfit, hb1, hb2⟩
    rw [matchesFrom_rec, if_pos hfit, if_pos ⟨hb1, hb2⟩]
    exact List.mem_cons_self _ _

theorem matchesFromAux_pairwise (raw : List Nat) (k : Nat) :
    ∀ fuel pos, List.Pairwise (· < ·) (matchesFromAux raw k fuel pos) := by
  intro fuel
  induction fuel with
  | zero => intro pos; simp [matchesFromAux]
  | succ n ih =>
    intro pos
    rw [matchesFromAux]
    by_cases hfit : pos + 2 + k ≤ raw.length
    · rw [if_pos hfit]
      by_cases hbytes : raw.getD pos 0 = 127 ∧ raw.getD (pos + 1) 0 = 127
      · rw [if_pos hbytes]
        refine List.pairwise_cons.mpr ⟨?_, ih _⟩
        intro q hq
        have := matchesFromAux_mem raw k n (pos + 2 + k) q hq
        omega
      · rw [if_neg hbytes]; exact ih _
    · rw [if_neg hfit]; exact List.Pairwise.nil

theorem matchesFrom_pairwise (raw : List Nat) (k pos : Nat) :
    List.Pairwise (· < ·) (matchesFrom raw k pos) :=
  matchesFromAux_pairwise raw k _ pos

/-- Membership in the binary frame list, unfolded: `(a, b)` is an emitted
PD0 frame iff `a` is an outer sync-marker match, the inner re-scan with
the declared length matches at `a` again, and `b` is `a + 2 + lenAt a`. -/
theorem pd0Frames_mem_iff (raw : List Nat) (a b : Nat) :
    (a, b) ∈ pd0Frames raw ↔
      a ∈ matchesFrom raw 2 0 ∧ a ∈ matchesFrom raw (lenAt raw a) a ∧
        b = a + 2 + lenAt raw a := by
  unfold pd0Frames pd0FramesAt
  rw [List.mem_flatMap]
  constructor
  · rintro ⟨p, hp, hmem⟩
    rcases List.mem_filterMap.mp hmem with ⟨q, hq, heq⟩
    by_cases hpq : p = q
    · rw [if_pos hpq] at heq
      cases heq
      subst hpq
      exact ⟨hp, hq, rfl⟩
    · rw [if_neg hpq] at heq
      cases heq
  · rintro ⟨ha, hinner, rfl⟩
    exact ⟨a, ha, List.mem_filterMap.mpr ⟨a, hinner, by rw [if_pos rfl]⟩⟩

/-- Every frame an outer match contributes starts at that match and ends
at the position fixed by its length field. -/
theorem pd0FramesAt_mem (raw : List Nat) (p : Nat) (x : Nat × Nat)
    (h : x ∈ pd0FramesAt raw p) : x = (p, p + 2 + lenAt raw p) := by
  unfold pd0FramesAt at h
  rcases List.mem_filterMap.mp h with ⟨q, _, heq⟩
  by_cases hpq : p = q
  · rw [if_pos hpq] at heq
    cases heq
    rw [hpq]
  · rw [if_neg hpq] at heq
    cases heq

/-- An outer match contributes at most one frame: only the inner re-scan
match that starts exactly at the outer position survives the filter, and
inner match positions are strictly increasing. -/
theorem pd0FramesAt_length_le (raw : List Nat) (p : Nat) :
    (pd0FramesAt raw p).length ≤ 1 := by
  unfold pd0FramesAt
  have hpw := matchesFrom_pairwise raw (lenAt raw p) p
  revert hpw
  generalize matchesFrom raw (lenAt raw p) p = inner
  induction inner with
  | nil => intro _; simp
  | cons q t ih =>
    intro hpw
    rcases List.pairwise_cons.mp hpw with ⟨hlt, hpt⟩
    by_cases hpq : p = q
    · subst hpq
      have ht : t.filterMap (fun innerPos =>
          if p = innerPos then some (innerPos, innerPos + 2 + lenAt raw p)
          else none) = [] := by
        rw [List.filterMap_eq_nil_iff]
        intro a ha
        rw [if_neg]
        intro hpa
        have := hlt a ha
        omega
      simp [List.filterMap_cons, ht]
    · simp only [List.filterMap_cons, if_neg hpq]
      exact ih hpt

/-- The binary frames are emitted in strictly ascending start order. -/
theorem pd0Frames_starts_pairwise (raw : List Nat) :
    List.Pairwise (fun a b : Nat × Nat => a.1 < b.1) (pd0Frames raw) := by
  unfold pd0Frames
  have hpw := matchesFrom_pairwise raw 2 0
  revert hpw
  generalize matchesFrom raw 2 0 = outer
  induction outer with
  | nil => intro _; simp
  | cons p t ih =>
    intro hpw
    rcases List.pairwise_cons.mp hpw with ⟨hlt, hpt⟩
    rw [List.flatMap_cons]
    refine List.pairwise_append.mpr ⟨?_, ih hpt, ?_⟩
    · have hlen := pd0FramesAt_length_le raw p
      match hx : pd0FramesAt raw p with
      | [] => exact List.Pairwise.nil
      | [x] => exact List.pairwise_singleton _ _
      | x :: y :: t2 => rw [hx] at hlen; simp at hlen
    · intro a ha b hb
      rcases List.mem_flatMap.mp hb with ⟨q, hq, hbq⟩
      have hap := pd0FramesAt_mem raw p a ha
      have hbq2 := pd0FramesAt_mem raw q b hbq
      rw [hap, hbq2]
      exact hlt q hq

/-! ## Claims -/

/-- C1, counterexample.  `c1buf` contains exactly one well-formed binary
PD0 record — sync marker at 0, little-endian length field 10, record
spanning the whole 12-byte buffer — whose payload carries a spurious sync
marker at offset 4; yet the sieve emits two binary frames, not one: the
code never checks for a trailing marker at the declared length, so the
spurious marker (whose own declared length 2 happens to fit) is emitted
as a frame too. -/
theorem claim_C1_counterexample :
    (c1buf.length = 12 ∧ c1buf.getD 0 0 = 127 ∧ c1buf.getD 1 0 = 127 ∧
      lenAt c1buf 0 = 10 ∧ c1buf.getD 4 0 = 127 ∧ c1buf.getD 5 0 = 127)
    ∧ sieve_function c1buf [] [] = [(0, 12), (4, 8)]
    ∧ (sieve_function c1buf [] []).length ≠ 1 := by
  decide

/-- C1, amended.  A sync marker found by the outer scan is accepted as a
frame start exactly when the two-byte little-endian length that follows
it fits inside the buffer — no trailing-marker check is made — and the
emitted frame then spans the marker, the length field and `lenAt` payload
bytes; a marker whose declared length overruns the buffer yields no frame
at that start. -/
theorem claim_C1_amended (raw : List Nat) (p : Nat)
    (hp : p ∈ matchesFrom raw 2 0) :
    ((p, p + 2 + lenAt raw p) ∈ pd0Frames raw ↔ p + 2 + lenAt raw p ≤ raw.length)
    ∧ ∀ b, (p, b) ∈ pd0Frames raw → b = p + 2 + lenAt raw p := by
  have hbytes := matchesFrom_mem raw 2 0 p hp
  constructor
  · rw [pd0Frames_mem_iff]
    constructor
    · rintro ⟨-, hinner, -⟩
      exact (matchesFrom_mem raw (lenAt raw p) p p hinner).2.1
    · intro hfit
      exact ⟨hp, (matchesFrom_self_mem_iff raw (lenAt raw p) p).mpr
        ⟨hfit, hbytes.2.2.1, hbytes.2.2.2⟩, rfl⟩
  · intro b hb
    exact ((pd0Frames_mem_iff raw p b).mp hb).2.2

/-- Witness for C1 (amended): on the 6-byte record `c1wbuf` the marker at
0 satisfies the hypothesis, its declared length fits, and the frame
`(0, 4)` is emitted. -/
theorem claim_C1_amended_witness :
    0 ∈ matchesFrom c1wbuf 2 0 ∧
      ((0, 0 + 2 + lenAt c1wbuf 0) ∈ pd0Frames c1wbuf ↔
        0 + 2 + lenAt c1wbuf 0 ≤ c1wbuf.length) :=
  ⟨by decide, (claim_C1_amended c1wbuf 0 (by decide)).1⟩

/-- C8, counterexample.  With an ASCII system-configuration block at
bytes 0-3 and a binary record at bytes 4-7, the sieve returns the binary
frame first and the ASCII frame second — not in ascending start order. -/
theorem claim_C8_counterexample :
    sieve_function c8buf [(0, 4)] [] = [(4, 8), (0, 4)]
    ∧ ¬ List.Pairwise (fun a b : Nat × Nat => a.1 ≤ b.1)
        (sieve_function c8buf [(0, 4)] []) := by
  decide

/-- C8, amended.  Within the binary matcher the emitted frame starts are
strictly ascending, and the sieve output is the per-matcher lists
concatenated in matcher order (binary frames, then system-configuration
matches, then compass-calibration matches) — not globally sorted by
start. -/
theorem claim_C8_amended (raw : List Nat)
    (sysConfigMatches compassCalMatches : List (Nat × Nat)) :
    List.Pairwise (fun a b : Nat × Nat => a.1 < b.1) (pd0Frames raw)
    ∧ sieve_function raw sysConfigMatches compassCalMatches
        = pd0Frames raw ++ sysConfigMatches ++ compassCalMatches :=
  ⟨pd0Frames_starts_pairwise raw, rfl⟩

/-- C2.  For every outcome of the device primitives, the get-calibration
handler from Autosample state runs the restart-logging step on every exit
path — its trace is always the try-block trace followed by the (never
empty) `_start_logging` trace — and when the restart succeeds after a
failure in the body, the handler re-raises the original failure. -/
theorem claim_C2 (d : InterruptRestoreDevice) :
    ((handler_autosample_get_calibration d).1
        = (tryBodyRun d (Action.cmdResp InstrumentCmds.OUTPUT_CALIBRATION_DATA "")).1
          ++ (start_logging d.startProbePrompt d.startDeploy).1)
    ∧ (start_logging d.startProbePrompt d.startDeploy).1 ≠ []
    ∧ ∀ e, (start_logging d.startProbePrompt d.startDeploy).2 = .ok true →
        (tryBodyRun d (Action.cmdResp InstrumentCmds.OUTPUT_CALIBRATION_DATA "")).2.1
          = some e →
        (handler_autosample_get_calibration d).2 = .error e := by
  refine ⟨?_, ?_, ?_⟩
  · unfold handler_autosample_get_calibration interruptRestoreRun
    cases hsr : (start_logging d.startProbePrompt d.startDeploy).2 with
    | error e2 => simp [hsr]
    | ok b =>
      cases hbody :
        (tryBodyRun d (Action.cmdResp InstrumentCmds.OUTPUT_CALIBRATION_DATA "")).2.1
        with
      | some e => simp [hsr, hbody]
      | none => simp [hsr, hbody]
  · unfold start_logging is_logging
    cases d.startProbePrompt with
    | error e => simp
    | ok prompt =>
      by_cases hc : Prompt.COMMAND = prompt
      · cases d.startDeploy <;> simp [hc]
      · simp [hc]
  · intro e hsr hbody
    unfold handler_autosample_get_calibration interruptRestoreRun
    simp [hsr, hbody]

/-- Witness for C2: with a failing calibration command and a successful
restore, the original calibration failure is the one raised. -/
theorem claim_C2_witness :
    (handler_autosample_get_calibration c2dev).2
      = .error (Err.protocolError "getCalibration failed") :=
  (claim_C2 c2dev).2.2 (Err.protocolError "getCalibration failed")
    (by decide) (by decide)

/-- C9, counterexample.  When both the calibration command and the
restore fail (`c9dev`), the handler raises only the restore failure (the
timeout from `START_DEPLOYMENT` in the `finally` block); the original
calibration failure is replaced, not reported in addition. -/
theorem claim_C9_counterexample :
    (handler_autosample_get_calibration c9dev).2 = .error Err.timeout
    ∧ c9dev.opResp = .error (Err.protocolError "getCalibration failed")
    ∧ Err.timeout ≠ Err.protocolError "getCalibration failed" := by
  decide

/-- C9, amended.  For each of the three autosample interrupt-and-restore
handlers, whenever the restore (`_start_logging` in the `finally` block)
fails, the restore failure is the one raised, replacing any original
operation failure, which is lost. -/
theorem claim_C9_amended (d : InterruptRestoreDevice) (e2 : Err)
    (h : (start_logging d.startProbePrompt d.startDeploy).2 = .error e2) :
    (handler_autosample_get_calibration d).2 = .error e2
    ∧ (handler_autosample_get_configuration d).2 = .error e2
    ∧ (handler_autosample_clock_sync d).2 = .error e2 := by
  unfold handler_autosample_get_calibration handler_autosample_get_configuration
    handler_autosample_clock_sync interruptRestoreRun
  simp [h]

/-- Witness for C9 (amended), at the double-failure device `c9dev`. -/
theorem claim_C9_amended_witness :
    (handler_autosample_get_calibration c9dev).2 = .error Err.timeout
    ∧ (handler_autosample_get_configuration c9dev).2 = .error Err.timeout
    ∧ (handler_autosample_clock_sync c9dev).2 = .error Err.timeout :=
  claim_C9_amended c9dev Err.timeout (by decide)

/-- C10.  Whenever the probe inside `_start_logging` reports the device
already logging (any prompt other than the command prompt), the helper
returns success after the probe alone: `START_DEPLOYMENT` is not sent. -/
theorem claim_C10 (probe : Except Err String) (deploy : Except Err Unit)
    (p : String) (hp : probe = .ok p) (hlog : p ≠ Prompt.COMMAND) :
    start_logging probe deploy = ([Action.wakeup], .ok true)
    ∧ Action.cmdNoResp InstrumentCmds.START_DEPLOYMENT
        ∉ (start_logging probe deploy).1 := by
  subst hp
  have hc : ¬(Prompt.COMMAND = p) := fun h => hlog h.symm
  unfold start_logging is_logging
  simp [hc]

/-- Witness for C10 at a banner prompt distinct from the command
prompt. -/
theorem claim_C10_witness :
    start_logging (.ok "RDI banner") (.ok ()) = ([Action.wakeup], .ok true) :=
  (claim_C10 (.ok "RDI banner") (.ok ()) "RDI banner" rfl (by decide)).1

/-- C4.  If, after the break and a successful wait for the command
prompt, the `_is_logging` probe still reports logging, then stopping
autosample fails with the `InstrumentProtocolException` "failed to stop
logging" (the model of `StopFailed`) and the protocol state remains
`AUTOSAMPLE`. -/
theorem claim_C4 (wakeupUntil : Except Err Unit) (probe : Except Err String)
    (p : String) (hwu : wakeupUntil = .ok ()) (hp : probe = .ok p)
    (hlog : p ≠ Prompt.COMMAND) :
    (handler_autosample_stop_autosample wakeupUntil probe).2
        = .error (Err.protocolError "failed to stop logging")
    ∧ fsm_apply ProtocolState.AUTOSAMPLE
        (handler_autosample_stop_autosample wakeupUntil probe).2
        = ProtocolState.AUTOSAMPLE := by
  subst hwu hp
  have hc : ¬(Prompt.COMMAND = p) := fun h => hlog h.symm
  unfold handler_autosample_stop_autosample stop_logging is_logging fsm_apply
  simp [hc]

/-- Witness for C4 at a non-command prompt. -/
theorem claim_C4_witness :
    (handler_autosample_stop_autosample (.ok ()) (.ok "RDI banner")).2
      = .error (Err.protocolError "failed to stop logging") :=
  (claim_C4 (.ok ()) (.ok "RDI banner") "RDI banner" rfl rfl (by decide)).1

/-- C5, counterexample.  When the probe produces no recognizable prompt
within its attempt budget, the wakeup outcome is a timeout; discovery
then fails with that timeout — not with the IndeterminateState error
`InstrumentProtocolException "_handler_unknown_discover - unable to to
determine state"` of driver.py line 1248 — though the mode does remain
`UNKNOWN`. -/
theorem claim_C5_counterexample :
    (handler_unknown_discover (.error Err.timeout)).2 = .error Err.timeout
    ∧ (handler_unknown_discover (.error Err.timeout)).2
        ≠ .error (Err.protocolError
            "_handler_unknown_discover - unable to to determine state")
    ∧ fsm_apply ProtocolState.UNKNOWN
        (handler_unknown_discover (.error Err.timeout)).2
        = ProtocolState.UNKNOWN := by
  decide

/-- C5, amended.  Discovery maps a logging probe to `AUTOSAMPLE` and a
command prompt to `COMMAND`; when the probe fails (no recognizable prompt
within the wakeup budget) the probe failure itself propagates unchanged —
the explicit indeterminate-state branch of the handler cannot fire
because `_is_logging` always returns a bool — and the mode remains
`UNKNOWN`; discovery never silently defaults. -/
theorem claim_C5_amended (wake : Except Err String) :
    (∀ p, wake = .ok p → p ≠ Prompt.COMMAND →
        (handler_unknown_discover wake).2 = .ok (some ProtocolState.AUTOSAMPLE))
    ∧ (wake = .ok Prompt.COMMAND →
        (handler_unknown_discover wake).2 = .ok (some ProtocolState.COMMAND))
    ∧ ∀ e, wake = .error e →
        (handler_unknown_discover wake).2 = .error e
        ∧ fsm_apply ProtocolState.UNKNOWN (handler_unknown_discover wake).2
            = ProtocolState.UNKNOWN := by
  refine ⟨?_, ?_, ?_⟩
  · intro p hp hlog
    subst hp
    have hc : ¬(Prompt.COMMAND = p) := fun h => hlog h.symm
    unfold handler_unknown_discover is_logging
    simp [hc]
  · intro hp
    subst hp
    unfold handler_unknown_discover is_logging
    simp
  · intro e he
    subst he
    unfold handler_unknown_discover is_logging fsm_apply
    simp

/-- Witness for C5 (amended): a banner prompt discovers `AUTOSAMPLE`, the
command prompt discovers `COMMAND`, and a timeout propagates leaving the
mode `UNKNOWN`. -/
theorem claim_C5_amended_witness :
    (handler_unknown_discover (.ok "RDI banner")).2
        = .ok (some ProtocolState.AUTOSAMPLE)
    ∧ (handler_unknown_discover (.ok Prompt.COMMAND)).2
        = .ok (some ProtocolState.COMMAND)
    ∧ (handler_unknown_discover (.error Err.timeout)).2 = .error Err.timeout :=
  ⟨(claim_C5_amended (.ok "RDI banner")).1 "RDI banner" rfl (by decide),
    (claim_C5_amended (.ok Prompt.COMMAND)).2.1 rfl,
    ((claim_C5_amended (.error Err.timeout)).2.2 Err.timeout rfl).1⟩

/-- C7.  Starting autosample from Command state performs, in order, the
clock SET, the save-setup-to-RAM command and the start-logging command; a
failure at any step aborts the remaining steps (they do not appear in the
trace), the failure propagates and the state remains `COMMAND`; only when
all steps succeed does the handler return `AUTOSAMPLE`. -/
theorem claim_C7 (d : StartAutosampleDevice) :
    (∀ e, d.setTimeResp = .error e →
        (handler_command_start_autosample d).1
            = [Action.cmdResp InstrumentCmds.SET "TT"]
        ∧ (handler_command_start_autosample d).2 = .error e
        ∧ fsm_apply ProtocolState.COMMAND (handler_command_start_autosample d).2
            = ProtocolState.COMMAND)
    ∧ (∀ r e, d.setTimeResp = .ok r → d.saveSetupResp = .error e →
        (handler_command_start_autosample d).1
            = [Action.cmdResp InstrumentCmds.SET "TT",
               Action.cmdResp InstrumentCmds.SAVE_SETUP_TO_RAM ""]
        ∧ (handler_command_start_autosample d).2 = .error e
        ∧ fsm_apply ProtocolState.COMMAND (handler_command_start_autosample d).2
            = ProtocolState.COMMAND)
    ∧ (∀ r1 r2 e, d.setTimeResp = .ok r1 → d.saveSetupResp = .ok r2 →
        d.startDeploy = .error e →
        (handler_command_start_autosample d).1
            = [Action.cmdResp InstrumentCmds.SET "TT",
               Action.cmdResp InstrumentCmds.SAVE_SETUP_TO_RAM "",
               Action.cmdNoResp InstrumentCmds.START_DEPLOYMENT]
        ∧ (handler_command_start_autosample d).2 = .error e
        ∧ fsm_apply ProtocolState.COMMAND (handler_command_start_autosample d).2
            = ProtocolState.COMMAND)
    ∧ ∀ r1 r2, d.setTimeResp = .ok r1 → d.saveSetupResp = .ok r2 →
        d.startDeploy = .ok () →
        (handler_command_start_autosample d).2 = .ok (some ProtocolState.AUTOSAMPLE)
        ∧ fsm_apply ProtocolState.COMMAND (handler_command_start_autosample d).2
            = ProtocolState.AUTOSAMPLE := by
  refine ⟨?_, ?_, ?_, ?_⟩
  · intro e h1
    unfold handler_command_start_autosample fsm_apply
    simp [h1]
  · intro r e h1 h2
    unfold handler_command_start_autosample fsm_apply
    simp [h1, h2]
  · intro r1 r2 e h1 h2 h3
    unfold handler_command_start_autosample fsm_apply
    simp [h1, h2, h3]
  · intro r1 r2 h1 h2 h3
    unfold handler_command_start_autosample fsm_apply
    simp [h1, h2, h3]

/-- Witness for C7: with a failing save-setup step the sequence stops
after the second command, the timeout propagates and the state stays
`COMMAND`. -/
theorem claim_C7_witness :
    (handler_command_start_autosample c7dev).1
        = [Action.cmdResp InstrumentCmds.SET "TT",
           Action.cmdResp InstrumentCmds.SAVE_SETUP_TO_RAM ""]
    ∧ (handler_command_start_autosample c7dev).2 = .error Err.timeout :=
  ⟨((claim_C7 c7dev).2.1 "TT2013/02/26,05:28:23" Err.timeout rfl rfl).1,
    ((claim_C7 c7dev).2.1 "TT2013/02/26,05:28:23" Err.timeout rfl rfl).2.1⟩

/-- The GET loop aborts at the first failing key: if every key before `k`
succeeds and the GET of `k` fails, the loop raises that failure and its
trace stops at `k`. -/
theorem update_go_abort (getResp : String → Except Err String) (k : String)
    (e : Err) (hk : getResp k = .error e) :
    ∀ (pre post : List String) (acc : String),
      (∀ k2 ∈ pre, ∃ r, getResp k2 = .ok r) →
      (update_go getResp (pre ++ k :: post) acc).2 = .error e
      ∧ (update_go getResp (pre ++ k :: post) acc).1
          = (pre ++ [k]).map fun q => Action.cmdResp InstrumentCmds.GET q := by
  intro pre
  induction pre with
  | nil =>
    intro post acc _
    simp [update_go, hk]
  | cons k2 t ih =>
    intro post acc hpre
    obtain ⟨r, hr⟩ := hpre k2 (List.mem_cons_self _ _)
    have hrest := ih post (acc ++ r ++ NEWLINE)
      fun x hx => hpre x (List.mem_cons_of_mem _ hx)
    simp [update_go, hr, hrest.1, hrest.2]

/-- C3, counterexample.  With the GET of `BANDWIDTH_CONTROL` (`WB`)
failing and every other GET fine, the refresh traces only the wakeup and
the GETs of `WV` and `WB`, then raises the failure: no GET is issued for
any of the 32 remaining parameters — one bad parameter blocks all the
rest, and no failure is recorded anywhere. -/
theorem claim_C3_counterexample :
    update_params (.ok Prompt.COMMAND) c3getResp
      = ([Action.wakeup, Action.cmdResp InstrumentCmds.GET "WV",
          Action.cmdResp InstrumentCmds.GET "WB"], .error Err.timeout)
    ∧ Action.cmdResp InstrumentCmds.GET "CH"
        ∉ (update_params (.ok Prompt.COMMAND) c3getResp).1
    ∧ Action.cmdResp InstrumentCmds.GET "CQ"
        ∉ (update_params (.ok Prompt.COMMAND) c3getResp).1 := by
  decide

/-- C3, amended.  When the GET transaction for one parameter fails, the
refresh aborts at that parameter: the failure propagates out of
`_update_params`, the trace ends at the failing GET, and the remaining
declared parameters get no GET transaction at all. -/
theorem claim_C3_amended (wake : Except Err String)
    (getResp : String → Except Err String) (pr : String)
    (pre post : List String) (k : String) (e : Err)
    (hwake : wake = .ok pr)
    (hsplit : parameterKeys = pre ++ k :: post)
    (hpre : ∀ k2 ∈ pre, ∃ r, getResp k2 = .ok r)
    (hk : getResp k = .error e) :
    (update_params wake getResp).2 = .error e
    ∧ (update_params wake getResp).1
        = Action.wakeup ::
            ((pre ++ [k]).map fun q => Action.cmdResp InstrumentCmds.GET q) := by
  subst hwake
  have habort := update_go_abort getResp k e hk pre post "" hpre
  rw [← hsplit] at habort
  unfold update_params
  simp [habort.1, habort.2]

/-- Witness for C3 (amended), at the split of `parameterKeys` after its
first key `WV` with `WB` failing. -/
theorem claim_C3_amended_witness :
    (update_params (.ok Prompt.COMMAND) c3getResp).2 = .error Err.timeout
    ∧ (update_params (.ok Prompt.COMMAND) c3getResp).1
        = Action.wakeup ::
            ((["WV"] ++ ["WB"]).map fun q => Action.cmdResp InstrumentCmds.GET q) :=
  claim_C3_amended (.ok Prompt.COMMAND) c3getResp Prompt.COMMAND
    ["WV"]
    ["CH", "WF", "WI", "EX", "WC", "WS", "WE", "WA", "CI", "WN", "WP", "WU",
     "EP", "CP", "WJ", "ER", "ES", "CN", "EZ", "CD", "CF", "WD", "CL", "EC",
     "TT", "TG", "TE", "TP", "WT", "WM", "WL", "CQ"]
    "WB" Err.timeout rfl (by decide)
    (by
      intro k2 hk2
      simp only [List.mem_singleton] at hk2
      subst hk2
      exact ⟨"OK " ++ "WV", rfl⟩)
    rfl

/-- C6.  Whenever the map passed to `_set_params` contains a parameter
declared read-only (or immutable at runtime, outside startup), the
verification step rejects the whole request before any transport write:
the trace is empty — in particular no SET transaction is issued for any
parameter of the map — and the read-only parameter failure is raised. -/
theorem claim_C6 (params : List (String × String)) (startup : Bool)
    (setResp : String → String → Except Err String)
    (wake : Except Err String) (getResp : String → Except Err String)
    (k v : String) (hmem : (k, v) ∈ params)
    (hro : paramReadOnly k = true ∨ (startup = false ∧ paramImmutable k = true)) :
    (set_params params startup setResp wake getResp).1 = []
    ∧ (set_params params startup setResp wake getResp).2
        = .error (Err.parameterError "Attempt to set read only parameter(s)") := by
  have hany : (params.any fun p =>
      paramReadOnly p.1 || (!startup && paramImmutable p.1)) = true := by
    refine List.any_eq_true.mpr ⟨(k, v), hmem, ?_⟩
    rcases hro with h | ⟨hs, h⟩
    · simp [h]
    · simp [hs, h]
  unfold set_params verify_not_readonly
  simp [hany]

/-- Witness for C6: setting the read-only `SERIAL_DATA_OUT` (`CD`)
parameter is rejected with no write issued. -/
theorem claim_C6_witness :
    (set_params [("CD", "000 000 000")] false (fun _ _ => .ok "")
        (.ok Prompt.COMMAND) (fun _ => .ok "")).1 = []
    ∧ (set_params [("CD", "000 000 000")] false (fun _ _ => .ok "")
        (.ok Prompt.COMMAND) (fun _ => .ok "")).2
        = .error (Err.parameterError "Attempt to set read only parameter(s)") :=
  claim_C6 [("CD", "000 000 000")] false (fun _ _ => .ok "")
    (.ok Prompt.COMMAND) (fun _ => .ok "") "CD" "000 000 000"
    (List.mem_singleton.mpr rfl) (Or.inl (by decide))

end Workhorse
